import Mathlib

/-!
Shallow embedding of the status-polling / notification core of the
chaturbate_model_onlinebot repository (Deno + TypeScript), together with
theorems settling the specification claims about it.

Conventions of the embedding:
* JS numbers used as timestamps / ids are modelled as `Nat` (all values the
  program produces there are non-negative integers); the rate limiter's
  backoff, which is multiplied by the non-integral factor 0.9, is modelled
  as `ℚ`.
* The external Deno KV store is modelled as explicit state records; an
  atomic compare-and-set retry loop is modelled by a `conflicts` parameter
  counting the failed commit attempts before success: the loop's effect is
  applied iff `conflicts` is below the loop's `maxAttempts`, and a failed
  attempt leaves the state unchanged (a conflicting concurrent writer that
  restored the same value, which bumps the versionstamp without changing
  the data).
* Network and transport effects are oracles passed in as data
  (`FetchOutcome`, `sendOk`).
-/

namespace CbBot

/-! ### utils.ts -/

/-- `sanitizeModelName` from utils.ts:
`name.replace(/[<>]/g, "").trim().toLowerCase()`, with the JS falsy guard
`if (!name) return ""`.  Trim and lower-casing are written out over the
character list so that they reduce in the kernel. -/
def sanitizeModelName (name : String) : String :=
  if name = "" then ""
  else
    let stripped := name.toList.filter (fun c => !(c = '<' || c = '>'))
    let trimmed := ((stripped.dropWhile Char.isWhitespace).reverse.dropWhile
      Char.isWhitespace).reverse
    String.mk (trimmed.map Char.toLower)

/-- `formatDuration` from utils.ts. -/
def formatDuration (ms : Int) : String :=
  if ms < 0 then "0 minutes"
  else
    let minutes := ms.toNat / (1000 * 60)
    let hours := minutes / 60
    let days := hours / 24
    if days > 0 then
      let remainingHours := hours % 24
      if remainingHours > 0 then toString days ++ "d " ++ toString remainingHours ++ "hrs"
      else toString days ++ "d"
    else if hours > 0 then
      let remainingMinutes := minutes % 60
      if remainingMinutes > 0 then toString hours ++ "hr " ++ toString remainingMinutes ++ "m"
      else toString hours ++ "hr"
    else toString minutes ++ " minutes"

/-- `escapeHTML` from utils.ts.  The JS version performs five sequential
global replaces (& < > " '); since none of the replacement strings contain
a character replaced by a later step except `&`, which is replaced first,
this equals the character-wise map below. -/
def escapeHTML (str : String) : String :=
  String.join (str.toList.map (fun c =>
    if c = '&' then "&amp;"
    else if c = '<' then "&lt;"
    else if c = '>' then "&gt;"
    else if c = Char.ofNat 34 then "&quot;"
    else if c = Char.ofNat 39 then "&#39;"
    else String.mk [c]))

/-! ### api-fetcher.ts — rate limiter and status fetch -/

/-- State of `APIRateLimiter` (api-fetcher.ts): `lastCall` and `backoffMs`.
`minBackoff = 1000`, `maxBackoff = 30000` are the class constants. -/
structure APIRateLimiter where
  lastCall : ℚ
  backoffMs : ℚ

def minBackoff : ℚ := 1000
def maxBackoff : ℚ := 30000

/-- The limiter starts with `lastCall = 0`, `backoffMs = 1000`. -/
def initialRateLimiter : APIRateLimiter := { lastCall := 0, backoffMs := 1000 }

/-- The sleep `callWithLimit` enforces before invoking the wrapped call:
`backoffMs - timeSinceLastCall` when the elapsed time is below the current
backoff, else nothing. -/
def sleepBefore (rl : APIRateLimiter) (now : ℚ) : ℚ :=
  if now - rl.lastCall < rl.backoffMs then rl.backoffMs - (now - rl.lastCall) else 0

/-- Success path of `callWithLimit`:
`backoffMs = Math.max(minBackoff, backoffMs * 0.9)`. -/
def onSuccess (b : ℚ) : ℚ := max minBackoff (b * (9 / 10))

/-- Failure path of `callWithLimit`:
`backoffMs = Math.min(maxBackoff, backoffMs * 2)`. -/
def onFailure (b : ℚ) : ℚ := min maxBackoff (b * 2)

/-- One observed behaviour of the remote status endpoint for one request:
either the transport layer fails (fetch rejects / times out), or an HTTP
response arrives with a status code and a body.  `body = none` means
`res.json()` fails to parse; `body = some rs` means it parses and `rs` is
the `room_status` field (`none` when absent or not a string). -/
inductive FetchOutcome where
  | transportError
  | response (status : Nat) (body : Option (Option String))

/-- `res.ok`: status in the inclusive range 200–299. -/
def resOk (status : Nat) : Bool := decide (200 ≤ status ∧ status ≤ 299)

/-- The closure passed to `rateLimiter.callWithLimit` in `fetchModelStatus`
(api-fetcher.ts lines 46–64).  `Except.error ()` models a thrown
exception (transport failure, the explicit 429 throw, or a JSON parse
failure). -/
def fetchAttempt (o : FetchOutcome) : Except Unit String :=
  match o with
  | .transportError => .error ()
  | .response status body =>
    if status = 404 then .ok "offline"
    else if status = 429 then .error ()
    else if !resOk status then .ok "unknown"
    else
      match body with
      | none => .error ()
      | some rs => .ok (if rs = some "offline" then "offline" else "online")

/-- `APIRateLimiter.callWithLimit`: runs the wrapped call, then updates
`backoffMs` (decay on success, exponential growth on failure) and
`lastCall`, re-raising any exception.  The source sets
`lastCall = Date.now()` after the call returns; the single `now`
parameter stands for that instant. -/
def callWithLimit (rl : APIRateLimiter) (now : ℚ) (r : Except Unit String) :
    Except Unit String × APIRateLimiter :=
  match r with
  | .ok v => (.ok v, { lastCall := now, backoffMs := onSuccess rl.backoffMs })
  | .error e => (.error e, { lastCall := now, backoffMs := onFailure rl.backoffMs })

/-- `fetchModelStatus` (api-fetcher.ts, rate-limited variant): the outer
try/catch collapses every exception escaping `callWithLimit` to
`"unknown"`. -/
def fetchModelStatus (rl : APIRateLimiter) (now : ℚ) (o : FetchOutcome) :
    String × APIRateLimiter :=
  match callWithLimit rl now (fetchAttempt o) with
  | (.ok v, rl2) => (v, rl2)
  | (.error _, rl2) => ("unknown", rl2)

/-- The limiter state after `n` consecutive failed calls starting from the
initial state (each failure goes through `fetchModelStatus` on a
transport error). -/
def afterFailures : Nat → APIRateLimiter
  | 0 => initialRateLimiter
  | n + 1 => (fetchModelStatus (afterFailures n) 0 .transportError).2

/-! ### Theorems for claims C2, C3, C10 -/

/-- Helper: a 2xx status is neither 404 nor 429. -/
theorem resOk_ne (s : Nat) (h : resOk s = true) : s ≠ 404 ∧ s ≠ 429 := by
  have h2 := of_decide_eq_true h
  omega

/-- C2: for every entity and every behaviour of the remote endpoint,
`fetchModelStatus` returns a value in `{online, offline, unknown}` and
never throws past its boundary; an HTTP 404 yields `offline`, an HTTP 429
yields `unknown` after doubling the backoff, any other non-success status
yields `unknown`, and any transport or parse failure yields `unknown`. -/
theorem fetchModelStatus_total_and_classified (rl : APIRateLimiter) (now : ℚ)
    (o : FetchOutcome) :
    ((fetchModelStatus rl now o).1 = "online" ∨ (fetchModelStatus rl now o).1 = "offline"
      ∨ (fetchModelStatus rl now o).1 = "unknown")
    ∧ (∀ body, o = .response 404 body → (fetchModelStatus rl now o).1 = "offline")
    ∧ (∀ body, o = .response 429 body →
        (fetchModelStatus rl now o).1 = "unknown"
        ∧ (fetchModelStatus rl now o).2.backoffMs = onFailure rl.backoffMs)
    ∧ (∀ s body, o = .response s body → s ≠ 404 → s ≠ 429 → resOk s = false →
        (fetchModelStatus rl now o).1 = "unknown")
    ∧ (o = .transportError → (fetchModelStatus rl now o).1 = "unknown")
    ∧ (∀ s, o = .response s none → resOk s = true →
        (fetchModelStatus rl now o).1 = "unknown") := by
  have hok : ∀ v, fetchAttempt o = .ok v →
      v = "online" ∨ v = "offline" ∨ v = "unknown" := by
    intro v hv
    match o with
    | .transportError => simp [fetchAttempt] at hv
    | .response s body =>
      simp only [fetchAttempt] at hv
      split at hv
      · simp only [Except.ok.injEq] at hv
        subst hv
        simp
      · split at hv
        · exact absurd hv (by simp)
        · split at hv
          · simp only [Except.ok.injEq] at hv
            subst hv
            simp
          · split at hv
            · exact absurd hv (by simp)
            · simp only [Except.ok.injEq] at hv
              split at hv <;> (subst hv; simp)
  refine ⟨?_, ?_, ?_, ?_, ?_, ?_⟩
  · rcases hr : fetchAttempt o with e | v
    · simp [fetchModelStatus, callWithLimit, hr]
    · have := hok v hr
      simp only [fetchModelStatus, callWithLimit, hr]
      simpa using this
  · rintro body rfl
    simp [fetchModelStatus, callWithLimit, fetchAttempt]
  · rintro body rfl
    simp [fetchModelStatus, callWithLimit, fetchAttempt]
  · rintro s body rfl h404 h429 hok
    simp [fetchModelStatus, callWithLimit, fetchAttempt, h404, h429, hok]
  · rintro rfl
    simp [fetchModelStatus, callWithLimit, fetchAttempt]
  · rintro s rfl hok
    have := resOk_ne s hok
    simp [fetchModelStatus, callWithLimit, fetchAttempt, this.1, this.2, hok]

/-- Witness for C2 at concrete inputs: a 404 response and a 429 response. -/
theorem fetchModelStatus_total_and_classified_witness :
    (fetchModelStatus initialRateLimiter 0 (.response 404 none)).1 = "offline"
    ∧ (fetchModelStatus initialRateLimiter 0 (.response 429 none)).1 = "unknown" := by
  refine ⟨?_, ?_⟩
  · exact (fetchModelStatus_total_and_classified initialRateLimiter 0
      (.response 404 none)).2.1 none rfl
  · exact ((fetchModelStatus_total_and_classified initialRateLimiter 0
      (.response 429 none)).2.2.1 none rfl).1

/-- Helper for C3: closed form of the backoff after `n` consecutive
failures. -/
theorem afterFailures_backoffMs (n : Nat) :
    (afterFailures n).backoffMs = min (1000 * 2 ^ n) 30000 := by
  induction n with
  | zero =>
    simp [afterFailures, initialRateLimiter]
    norm_num
  | succ n ih =>
    have hstep : (afterFailures (n + 1)).backoffMs = onFailure (afterFailures n).backoffMs := by
      simp [afterFailures, fetchModelStatus, callWithLimit, fetchAttempt]
    rw [hstep, ih, onFailure, maxBackoff]
    rcases le_total (1000 * 2 ^ n : ℚ) 30000 with h | h
    · rw [min_eq_left h, min_comm]
      ring_nf
    · rw [min_eq_right h]
      have h2 : (30000 : ℚ) ≤ 1000 * 2 ^ (n + 1) := by
        calc (30000 : ℚ) ≤ 1000 * 2 ^ n := h
        _ ≤ 1000 * 2 ^ (n + 1) := by
          have : (2 : ℚ) ^ n ≤ 2 ^ (n + 1) := by
            have := pow_le_pow_right₀ (by norm_num : (1 : ℚ) ≤ 2) (Nat.le_succ n)
            exact this
          nlinarith
      rw [min_eq_right h2]
      norm_num

/-- C3: starting from the initial 1000 ms backoff, after `n` consecutive
failed calls the enforced delay before the next call (taken at the moment
of the last failure) is `min(1000 * 2^n, 30000)` ms; a subsequent
successful call multiplies the backoff by 0.9 and clamps at the 1000 ms
floor, so it never decays below 1000 ms and never grows. -/
theorem rateLimiter_backoff_growth_and_decay (n : Nat) (b : ℚ) (hb : minBackoff ≤ b) :
    (afterFailures n).backoffMs = min (1000 * 2 ^ n) 30000
    ∧ sleepBefore (afterFailures n) (afterFailures n).lastCall
        = min (1000 * 2 ^ n) 30000
    ∧ (fetchModelStatus { lastCall := 0, backoffMs := b } 0
        (.response 404 none)).2.backoffMs = max 1000 (b * (9 / 10))
    ∧ 1000 ≤ onSuccess b ∧ onSuccess b ≤ b := by
  have hform := afterFailures_backoffMs n
  have hpos : (0 : ℚ) < (afterFailures n).backoffMs := by
    rw [hform]
    have : (0 : ℚ) < 1000 * 2 ^ n := by positivity
    exact lt_min this (by norm_num)
  refine ⟨hform, ?_, ?_, ?_, ?_⟩
  · rw [sleepBefore]
    rw [if_pos (by simpa using hpos)]
    simpa using hform
  · simp [fetchModelStatus, callWithLimit, fetchAttempt, onSuccess, minBackoff]
  · rw [onSuccess, minBackoff]
    exact le_max_left _ _
  · rw [onSuccess, minBackoff]
    have hb1000 : (1000 : ℚ) ≤ b := by simpa [minBackoff] using hb
    have h910 : b * (9 / 10) ≤ b := by nlinarith
    exact max_le hb1000 h910

/-- Witness for C3 at `n = 6` (cap reached) and `b = 2000`. -/
theorem rateLimiter_backoff_growth_and_decay_witness :
    (afterFailures 6).backoffMs = min (1000 * 2 ^ 6) 30000
    ∧ 1000 ≤ onSuccess 2000 ∧ onSuccess 2000 ≤ 2000 := by
  have h := rateLimiter_backoff_growth_and_decay 6 2000 (by norm_num [minBackoff])
  exact ⟨h.1, h.2.2.2.1, h.2.2.2.2⟩

/-- C10: for every successful (2xx, parseable) response,
`fetchModelStatus` returns `offline` exactly when the body's
`room_status` field is the string "offline"; any other value of the
field, including its absence, is reported as `online`. -/
theorem fetchModelStatus_room_status (rl : APIRateLimiter) (now : ℚ)
    (s : Nat) (rs : Option String) (hok : resOk s = true) :
    ((fetchModelStatus rl now (.response s (some rs))).1 = "offline" ↔ rs = some "offline")
    ∧ (rs ≠ some "offline" →
        (fetchModelStatus rl now (.response s (some rs))).1 = "online") := by
  have hne := resOk_ne s hok
  constructor
  · constructor
    · intro h
      by_contra hrs
      simp [fetchModelStatus, callWithLimit, fetchAttempt, hne.1, hne.2, hok, hrs] at h
    · intro hrs
      simp [fetchModelStatus, callWithLimit, fetchAttempt, hne.1, hne.2, hok, hrs]
  · intro hrs
    simp [fetchModelStatus, callWithLimit, fetchAttempt, hne.1, hne.2, hok, hrs]

/-- Witness for C10 at status 200 with `room_status = "offline"` and with
`room_status = "away"`. -/
theorem fetchModelStatus_room_status_witness :
    (fetchModelStatus initialRateLimiter 0 (.response 200 (some (some "offline")))).1
      = "offline"
    ∧ (fetchModelStatus initialRateLimiter 0 (.response 200 (some (some "away")))).1
      = "online" := by
  constructor
  · exact (fetchModelStatus_room_status initialRateLimiter 0 200 (some "offline")
      (by decide)).1.mpr rfl
  · exact (fetchModelStatus_room_status initialRateLimiter 0 200 (some "away")
      (by decide)).2 (by simp)

/-! ### database.ts (array-subscriber variant) — subscription repository

State relevant to the queue invariant: the `["models_queue"]` key and the
per-model `["model_subscribers", name]` arrays.  The per-user
`["subscriptions", chatId, name]` and `["users", chatId]` keys and the
`["statuses", name]` records do not enter the invariant and are omitted.
CAS retry loops take a `conflicts : Nat` parameter counting failed commit
attempts; the loop's effect lands iff `conflicts` is below the loop's
`maxAttempts` (a failed attempt leaves the data unchanged). -/

structure KVState where
  models_queue : List String
  model_subscribers : String → List Nat

def initKV : KVState := { models_queue := [], model_subscribers := fun _ => [] }

/-- `addSubscriberToModel` (database.ts): read the model's subscriber
array; if the chat id is absent, CAS-append it, retrying up to
`maxAttempts = 3`. -/
def addSubscriberToModel (modelName : String) (chatId : Nat) (conflicts : Nat)
    (st : KVState) : KVState :=
  let subscribers := st.model_subscribers modelName
  if chatId ∈ subscribers then st
  else if conflicts < 3 then
    { st with model_subscribers :=
        fun m => if m = modelName then subscribers ++ [chatId] else st.model_subscribers m }
  else st

/-- `removeModelFromQueue` (database.ts): if the model is in the queue,
CAS-replace the queue with the filtered queue and delete the model's
status record and subscriber array, retrying up to `maxAttempts = 3`. -/
def removeModelFromQueue (modelName : String) (conflicts : Nat) (st : KVState) : KVState :=
  if modelName ∈ st.models_queue then
    if conflicts < 3 then
      { models_queue := st.models_queue.filter (fun m => m ≠ modelName),
        model_subscribers :=
          fun m => if m = modelName then [] else st.model_subscribers m }
    else st
  else st

/-- `removeSubscriberFromModel` (database.ts): if the chat id is in the
model's array, CAS-store the filtered array (up to `maxAttempts = 3`);
when the commit lands and the filtered array is empty, call
`removeModelFromQueue`. -/
def removeSubscriberFromModel (modelName : String) (chatId : Nat)
    (conflicts conflictsQueue : Nat) (st : KVState) : KVState :=
  let subscribers := st.model_subscribers modelName
  if chatId ∈ subscribers then
    if conflicts < 3 then
      let filteredSubscribers := subscribers.filter (fun id => id ≠ chatId)
      let st1 : KVState :=
        { st with model_subscribers :=
            fun m => if m = modelName then filteredSubscribers
                     else st.model_subscribers m }
      if filteredSubscribers = [] then removeModelFromQueue modelName conflictsQueue st1
      else st1
    else st
  else st

/-- The queue-insertion retry loop inside `addUserSubscription`
(database.ts): if the model is not in the queue, CAS-append it, retrying
up to `maxAttempts = 5`. -/
def queueAdd (modelName : String) (conflicts : Nat) (st : KVState) : KVState :=
  if modelName ∈ st.models_queue then st
  else if conflicts < 5 then
    { st with models_queue := st.models_queue ++ [modelName] }
  else st

/-- `addUserSubscription` (database.ts): sanitize the name (no-op when
empty), record the subscription, add the subscriber to the model's array,
then ensure queue membership. -/
def addUserSubscription (chatId : Nat) (rawName : String) (cSub cQueue : Nat)
    (st : KVState) : KVState :=
  let modelName := sanitizeModelName rawName
  if modelName = "" then st
  else queueAdd modelName cQueue (addSubscriberToModel modelName chatId cSub st)

/-- `removeUserSubscription` (database.ts): sanitize the name (no-op when
empty), delete the subscription key, then remove the subscriber from the
model's array (which handles queue cleanup). -/
def removeUserSubscription (chatId : Nat) (rawName : String) (cSub cQueue : Nat)
    (st : KVState) : KVState :=
  let modelName := sanitizeModelName rawName
  if modelName = "" then st
  else removeSubscriberFromModel modelName chatId cSub cQueue st

/-- One subscribe or unsubscribe call, with the conflict counts its CAS
loops encounter. -/
inductive SubOp where
  | sub (chatId : Nat) (rawName : String) (cSub cQueue : Nat)
  | unsub (chatId : Nat) (rawName : String) (cSub cQueue : Nat)

def applyOp (st : KVState) (op : SubOp) : KVState :=
  match op with
  | .sub c r c1 c2 => addUserSubscription c r c1 c2 st
  | .unsub c r c1 c2 => removeUserSubscription c r c1 c2 st

def applyOps (st : KVState) (ops : List SubOp) : KVState := List.foldl applyOp st ops

/-- An operation whose every CAS loop commits within its bounded attempt
limit (`maxAttempts = 3` for the subscriber-array loops, 5 for queue
insertion, 3 for queue removal). -/
def withinRetryLimit : SubOp → Prop
  | .sub _ _ c1 c2 => c1 < 3 ∧ c2 < 5
  | .unsub _ _ c1 c2 => c1 < 3 ∧ c2 < 3

instance : DecidablePred withinRetryLimit := by
  intro op
  cases op <;> exact inferInstanceAs (Decidable (_ ∧ _))

/-- The cleanup invariant: a model is in the queue iff its subscriber
array is non-empty. -/
def QueueInvariant (st : KVState) : Prop :=
  ∀ m : String, m ∈ st.models_queue ↔ st.model_subscribers m ≠ []

/-- Helper: a subscribe whose two CAS loops commit within their limits
preserves the queue invariant. -/
theorem queueInvariant_addUserSub (st : KVState) (chatId : Nat) (n : String)
    (c1 c2 : Nat) (hst : QueueInvariant st) (hc1 : c1 < 3) (hc2 : c2 < 5) :
    QueueInvariant (queueAdd n c2 (addSubscriberToModel n chatId c1 st)) := by
  set st1 := addSubscriberToModel n chatId c1 st with hst1
  have hq1 : st1.models_queue = st.models_queue := by
    rw [hst1]
    simp only [addSubscriberToModel]
    split_ifs <;> rfl
  have hsub1_ne : ∀ m, m ≠ n → st1.model_subscribers m = st.model_subscribers m := by
    intro m hm
    rw [hst1]
    simp only [addSubscriberToModel]
    split_ifs <;> simp [hm]
  have hsub1_self : st1.model_subscribers n ≠ [] := by
    rw [hst1]
    simp only [addSubscriberToModel]
    split_ifs with h1
    · exact List.ne_nil_of_mem h1
    · simp
  intro m
  simp only [queueAdd]
  split_ifs with hq
  · by_cases hmn : m = n
    · subst hmn
      exact ⟨fun _ => hsub1_self, fun _ => hq⟩
    · rw [hsub1_ne m hmn, hq1]
      exact hst m
  · by_cases hmn : m = n
    · subst hmn
      refine ⟨fun _ => hsub1_self, fun _ => ?_⟩
      simp
    · simp only [List.mem_append, List.mem_singleton]
      constructor
      · rintro (h | h)
        · rw [hsub1_ne m hmn]
          rw [hq1] at h
          exact (hst m).mp h
        · exact absurd h hmn
      · intro h
        left
        rw [hq1]
        exact (hst m).mpr (by rwa [hsub1_ne m hmn] at h)

/-- Helper: an unsubscribe whose two CAS loops commit within their limits
preserves the queue invariant. -/
theorem queueInvariant_removeSub (st : KVState) (chatId : Nat) (n : String)
    (c1 c2 : Nat) (hst : QueueInvariant st) (hc1 : c1 < 3) (hc2 : c2 < 3) :
    QueueInvariant (removeSubscriberFromModel n chatId c1 c2 st) := by
  intro m
  simp only [removeSubscriberFromModel, removeModelFromQueue]
  split_ifs with h1 h2 h3
  · -- subscriber present, filtered array empty, cleanup CAS commits
    by_cases hmn : m = n
    · subst hmn
      simp [List.mem_filter, h2]
    · simp only [List.mem_filter, if_neg hmn, decide_eq_true_eq]
      constructor
      · rintro ⟨h, _⟩
        exact (hst m).mp h
      · intro h
        exact ⟨(hst m).mpr h, hmn⟩
  · -- filtered array empty but model not in queue: impossible given the invariant
    exact absurd ((hst n).mpr (List.ne_nil_of_mem h1)) h3
  · -- other subscribers remain; queue untouched
    by_cases hmn : m = n
    · subst hmn
      simp only [if_pos rfl]
      exact ⟨fun _ => h2, fun _ => (hst m).mpr (List.ne_nil_of_mem h1)⟩
    · simp only [if_neg hmn]
      exact hst m
  · -- subscriber was not in the model's array: no-op
    exact hst m

/-- Helper: one operation whose CAS loops all commit within their attempt
limits preserves the queue invariant. -/
theorem queueInvariant_applyOp (st : KVState) (op : SubOp)
    (hst : QueueInvariant st) (hop : withinRetryLimit op) :
    QueueInvariant (applyOp st op) := by
  cases op with
  | sub chatId rawName c1 c2 =>
    obtain ⟨hc1, hc2⟩ := hop
    simp only [applyOp, addUserSubscription]
    by_cases hname : sanitizeModelName rawName = ""
    · simpa [hname] using hst
    · rw [if_neg hname]
      exact queueInvariant_addUserSub st chatId _ c1 c2 hst hc1 hc2
  | unsub chatId rawName c1 c2 =>
    obtain ⟨hc1, hc2⟩ := hop
    simp only [applyOp, removeUserSubscription]
    by_cases hname : sanitizeModelName rawName = ""
    · simpa [hname] using hst
    · rw [if_neg hname]
      exact queueInvariant_removeSub st chatId _ c1 c2 hst hc1 hc2

/-- Helper: the invariant is preserved along any conflict-bounded
sequence of operations. -/
theorem queueInvariant_applyOps (ops : List SubOp) :
    (∀ op ∈ ops, withinRetryLimit op) →
    ∀ st : KVState, QueueInvariant st → QueueInvariant (applyOps st ops) := by
  induction ops with
  | nil =>
    intro _ st hst
    simpa [applyOps] using hst
  | cons op rest ih =>
    intro h st hst
    simp only [applyOps, List.foldl_cons]
    exact ih (fun o ho => h o (by simp [ho])) _
      (queueInvariant_applyOp st op hst (h op (by simp)))

/-- C1 (amended): after any sequence of `addUserSubscription` /
`removeUserSubscription` calls, each of whose bounded CAS retry loops
commits within its attempt limit (conflicts strictly fewer than the
loop's `maxAttempts`), a tracked entity is in the models queue iff it has
at least one subscriber.  The claim's unrestricted form fails when a loop
exhausts its attempts — see the counterexample. -/
theorem queue_membership_iff_subscribed (ops : List SubOp)
    (h : ∀ op ∈ ops, withinRetryLimit op) :
    QueueInvariant (applyOps initKV ops) :=
  queueInvariant_applyOps ops h initKV (by simp [QueueInvariant, initKV])

/-- Witness for C1 (amended) on a concrete subscribe/unsubscribe sequence
in which the CAS loops see conflicts but stay within their limits. -/
theorem queue_membership_iff_subscribed_witness :
    (∀ op ∈ [SubOp.sub 7 "alice" 2 4, SubOp.sub 8 "alice" 0 0,
      SubOp.unsub 7 "alice" 2 2, SubOp.unsub 8 "alice" 1 2], withinRetryLimit op)
    ∧ QueueInvariant (applyOps initKV [SubOp.sub 7 "alice" 2 4, SubOp.sub 8 "alice" 0 0,
      SubOp.unsub 7 "alice" 2 2, SubOp.unsub 8 "alice" 1 2]) :=
  ⟨by decide, queue_membership_iff_subscribed _ (by decide)⟩

/-- C1 counterexample: the claim as stated (invariant after retries *up
to* the bounded attempt limit) fails.  Subscribe chat 1 to "a"
conflict-free, then unsubscribe while the `removeModelFromQueue` CAS loop
conflicts on all 3 attempts: the subscriber array becomes empty but "a"
stays in the queue. -/
theorem queue_membership_iff_subscribed_cex :
    ¬ QueueInvariant (applyOps initKV [SubOp.sub 1 "a" 0 0, SubOp.unsub 1 "a" 0 3]) := by
  intro h
  have h2 := h "a"
  revert h2
  decide

/-! ### database.ts / main.ts — statuses, dedup store, notifications

`ModelStatus` is the per-entity status record (database.ts, array
variant).  The `["recent_notifications", chatId, model, type]` keys are
modelled as a function from key to `(timestamp, absolute expiry)`; Deno
KV's `expireIn` makes the key invisible once `now` reaches the expiry.
The Telegram transport is an oracle `sendOk : Nat → Bool`; the blocked-
user purge performed in `sendNotifications`' catch branch touches only
subscription state and is outside this model. -/

structure ModelStatus where
  status : String
  online_since : Option Nat
  notified_users : List Nat
  last_notification_time : Option Nat
deriving DecidableEq

def GRACE_PERIOD_MS : Nat := 2 * 60 * 1000
def DEDUP_WINDOW_MS : Nat := 5 * 60 * 1000
def NOTIF_EXPIRY_MS : Nat := 10 * 60 * 1000

def NotifStore : Type := Nat × String × String → Option (Nat × Nat)

def emptyNotifStore : NotifStore := fun _ => none

/-- A `kv.get` on a recent-notification key: the stored timestamp, or
`none` when the key is absent or its `expireIn` has elapsed. -/
def kvGetNotifTime (store : NotifStore) (now : Nat) (k : Nat × String × String) :
    Option Nat :=
  match store k with
  | none => none
  | some (t, exp) => if now < exp then some t else none

/-- `isRecentNotification` (database.ts): false when no value is stored
(the JS guard `if (!result.value) return false` also fires on a stored
timestamp of 0, which is falsy); otherwise true iff the age is below the
5-minute dedup window. -/
def isRecentNotification (store : NotifStore) (now : Nat) (chatId : Nat)
    (modelName ntype : String) : Bool :=
  match kvGetNotifTime store now (chatId, modelName, ntype) with
  | none => false
  | some t => if t = 0 then false else decide (now - t < DEDUP_WINDOW_MS)

/-- `recordNotification` (database.ts): store the current time under the
triple's key with a 10-minute expiry. -/
def recordNotification (store : NotifStore) (now : Nat) (chatId : Nat)
    (modelName ntype : String) : NotifStore :=
  fun k => if k = (chatId, modelName, ntype) then some (now, now + NOTIF_EXPIRY_MS)
           else store k

structure SendOutcome where
  sent : List Nat
  skippedCount : Nat
  notificationErrors : Nat
  store : NotifStore

/-- The loop body of `sendNotifications` (main.ts): per recipient, skip
when a recent notification exists; otherwise attempt the send, recording
it on success; on failure count the error and stop the whole fan-out once
the error count exceeds 10. -/
def sendNotificationsAux (now : Nat) (sendOk : Nat → Bool) (modelName ntype : String) :
    List Nat → NotifStore → Nat → SendOutcome
  | [], store, errs =>
    { sent := [], skippedCount := 0, notificationErrors := errs, store := store }
  | chatId :: rest, store, errs =>
    if isRecentNotification store now chatId modelName ntype then
      let r := sendNotificationsAux now sendOk modelName ntype rest store errs
      { r with skippedCount := r.skippedCount + 1 }
    else if sendOk chatId then
      let store1 := recordNotification store now chatId modelName ntype
      let r := sendNotificationsAux now sendOk modelName ntype rest store1 errs
      { r with sent := chatId :: r.sent }
    else
      let errs1 := errs + 1
      if errs1 > 10 then
        { sent := [], skippedCount := 0, notificationErrors := errs1, store := store }
      else sendNotificationsAux now sendOk modelName ntype rest store errs1

/-- `sendNotifications` (main.ts). -/
def sendNotifications (store : NotifStore) (now : Nat) (sendOk : Nat → Bool)
    (userIds : List Nat) (modelName ntype : String) : SendOutcome :=
  sendNotificationsAux now sendOk modelName ntype userIds store 0

/-- The offline message built in `processStatusChange`. -/
def offlineMessage (modelName durationText : String) : String :=
  "❌ <a href=\"https://chaturbate.com/" ++ modelName ++ "/\">" ++ escapeHTML modelName
    ++ "</a> is now <b>OFFLINE</b>." ++ durationText

/-- The online message built in `processStatusChange`. -/
def onlineMessage (modelName : String) : String :=
  "✅ <a href=\"https://chaturbate.com/" ++ modelName ++ "/\">" ++ escapeHTML modelName
    ++ "</a> is now <b>ONLINE</b>! 🎭"

/-- Observable result of `processStatusChange`: the value written by
`updateModelStatus` (if any), the message built, the recipients actually
dispatched to, the dedup skips, and the dedup store afterwards. -/
structure StatusChangeOutcome where
  statusUpdate : Option ModelStatus
  message : Option String
  sent : List Nat
  skippedCount : Nat
  store : NotifStore

def noChangeOutcome (store : NotifStore) : StatusChangeOutcome :=
  { statusUpdate := none, message := none, sent := [], skippedCount := 0, store := store }

/-- `processStatusChange` (main.ts lines 131–211).  JS falsy artefacts
kept: `storedStatus?.online_since || now` treats a stored 0 as absent, as
does the truthiness guard on `online_since` in the offline branch.  When
`storedStatus` is null, the spread `{ ...storedStatus, ... }` in the
online/online branch yields a record with no `status`/`online_since`
fields, modelled by empty defaults (that branch is never exercised with a
null stored status by the poll loop). -/
def processStatusChange (modelName currentStatus prevStatus : String)
    (storedStatus : Option ModelStatus) (subscribers : List Nat)
    (now : Nat) (store : NotifStore) (sendOk : Nat → Bool) : StatusChangeOutcome :=
  if currentStatus = "online" then
    if prevStatus = "offline" then
      let newStatusData : ModelStatus :=
        { status := "online", online_since := some now,
          notified_users := [], last_notification_time := none }
      { statusUpdate := some newStatusData,
        message := none, sent := [], skippedCount := 0, store := store }
    else if prevStatus = "online" then
      let onlineSince :=
        match storedStatus.bind (fun s => s.online_since) with
        | some t => if t = 0 then now else t
        | none => now
      let timeOnline := now - onlineSince
      if timeOnline < GRACE_PERIOD_MS then noChangeOutcome store
      else
        let notifiedUsers := (storedStatus.map (fun s => s.notified_users)).getD []
        let newSubscribers := subscribers.filter (fun (id : Nat) => decide (id ∉ notifiedUsers))
        if newSubscribers.length > 0 then
          let r := sendNotifications store now sendOk newSubscribers modelName "online"
          let base := storedStatus.getD
            { status := "", online_since := none, notified_users := [],
              last_notification_time := none }
          let updatedStatus : ModelStatus :=
            { base with notified_users := subscribers,
                        last_notification_time := some now }
          { statusUpdate := some updatedStatus,
            message := some (onlineMessage modelName),
            sent := r.sent, skippedCount := r.skippedCount, store := r.store }
        else noChangeOutcome store
    else noChangeOutcome store
  else
    let durationText :=
      match storedStatus.bind (fun s => s.online_since) with
      | some t =>
        if t = 0 then ""
        else " (Online for " ++ formatDuration ((now : Int) - (t : Int)) ++ ")"
      | none => ""
    let newStatusData : ModelStatus :=
      { status := "offline", online_since := none,
        notified_users := [], last_notification_time := none }
    let r := sendNotifications store now sendOk subscribers modelName "offline"
    { statusUpdate := some newStatusData,
      message := some (offlineMessage modelName durationText),
      sent := r.sent, skippedCount := r.skippedCount, store := r.store }

/-- One entity's processing inside the poll cron job (main.ts lines
71–82): skip `unknown` fetches; otherwise derive the previous status
(`storedStatus?.status ?? "offline"`) and call `processStatusChange` only
when the fetched status differs. -/
def pollStep (modelName : String) (currentStatus : String)
    (storedStatus : Option ModelStatus) (subscribers : List Nat)
    (now : Nat) (store : NotifStore) (sendOk : Nat → Bool) : StatusChangeOutcome :=
  if currentStatus = "unknown" then noChangeOutcome store
  else
    let prevStatus := (storedStatus.map (fun s => s.status)).getD "offline"
    if currentStatus ≠ prevStatus then
      processStatusChange modelName currentStatus prevStatus storedStatus subscribers
        now store sendOk
    else noChangeOutcome store

/-- Helper: recording a notification for one chat id does not change the
dedup verdict for a different chat id (the KV keys differ). -/
theorem isRecent_record_of_ne (store : NotifStore) (tRec tq : Nat) (c idc : Nat)
    (modelName ty : String) (h : idc ≠ c) :
    isRecentNotification (recordNotification store tRec c modelName ty) tq idc modelName ty
      = isRecentNotification store tq idc modelName ty := by
  have hk : ((idc, modelName, ty) : Nat × String × String) ≠ (c, modelName, ty) := by
    simp [Prod.ext_iff, h]
  simp only [isRecentNotification, kvGetNotifTime, recordNotification, if_neg hk]

/-- Helper: on a duplicate-free recipient list with no recent
notifications and a transport that succeeds for everyone,
`sendNotificationsAux` dispatches to exactly the given list, skips
nobody, and records no errors. -/
theorem sendAux_all_fresh (now : Nat) (sendOk : Nat → Bool) (modelName ty : String) :
    ∀ (l : List Nat) (store : NotifStore) (errs : Nat),
      l.Nodup →
      (∀ idc ∈ l, isRecentNotification store now idc modelName ty = false) →
      (∀ idc ∈ l, sendOk idc = true) →
      (sendNotificationsAux now sendOk modelName ty l store errs).sent = l
      ∧ (sendNotificationsAux now sendOk modelName ty l store errs).skippedCount = 0
      ∧ (sendNotificationsAux now sendOk modelName ty l store errs).notificationErrors
          = errs := by
  intro l
  induction l with
  | nil =>
    intro store errs _ _ _
    exact ⟨rfl, rfl, rfl⟩
  | cons c rest ih =>
    intro store errs hnodup hfresh hok
    have hnd := List.nodup_cons.mp hnodup
    have hfc := hfresh c (by simp)
    have hoc := hok c (by simp)
    have hfresh1 : ∀ idc ∈ rest,
        isRecentNotification (recordNotification store now c modelName ty) now idc
          modelName ty = false := by
      intro idc hid
      rw [isRecent_record_of_ne]
      · exact hfresh idc (by simp [hid])
      · intro hidc
        exact hnd.1 (hidc ▸ hid)
    obtain ⟨hs, hsk, he⟩ := ih (recordNotification store now c modelName ty) errs hnd.2
      hfresh1 (fun idc hid => hok idc (by simp [hid]))
    simp only [sendNotificationsAux, hfc, hoc]
    simp [hs, hsk, he]

/-- C4: when the stored status is `offline` and the poll fetches `online`,
the poll records an online status with `online_since = now` and an empty
`notified_users`, and dispatches no notification (the grace period is
pending). -/
theorem poll_offline_to_online_starts_grace (modelName : String)
    (stored : Option ModelStatus) (subs : List Nat) (now : Nat)
    (store : NotifStore) (sendOk : Nat → Bool)
    (hprev : (stored.map (fun s => s.status)).getD "offline" = "offline") :
    (pollStep modelName "online" stored subs now store sendOk).statusUpdate
      = some { status := "online", online_since := some now, notified_users := [],
               last_notification_time := none }
    ∧ (pollStep modelName "online" stored subs now store sendOk).sent = []
    ∧ (pollStep modelName "online" stored subs now store sendOk).message = none := by
  have h1 : ("online" : String) ≠ "unknown" := by decide
  have h3 : ("online" : String) ≠ "offline" := by decide
  simp [pollStep, processStatusChange, hprev, h1, h3]

/-- Witness for C4 at a first-seen entity (no stored record). -/
theorem poll_offline_to_online_starts_grace_witness :
    (pollStep "m" "online" none [5] 1000 emptyNotifStore (fun _ => true)).statusUpdate
      = some { status := "online", online_since := some 1000, notified_users := [],
               last_notification_time := none }
    ∧ (pollStep "m" "online" none [5] 1000 emptyNotifStore (fun _ => true)).sent = []
    ∧ (pollStep "m" "online" none [5] 1000 emptyNotifStore (fun _ => true)).message
        = none :=
  poll_offline_to_online_starts_grace "m" none [5] 1000 emptyNotifStore (fun _ => true) rfl

/-- C5 (code bug): an entity stored `online` past the 2-minute grace
period that fetches `online` again is skipped by the poll loop (the cron
job calls `processStatusChange` only when the status changed), so the
deferred online notification is never dispatched and the status record is
not updated — even though `processStatusChange` itself, if it were
invoked on this input as its online/online branch intends, would dispatch
to the never-notified subscriber 42. -/
theorem poll_skips_continuously_online :
    (pollStep "m" "online"
        (some { status := "online", online_since := some 1000, notified_users := [],
                last_notification_time := none })
        [42] (1000 + GRACE_PERIOD_MS) emptyNotifStore (fun _ => true)).sent = []
    ∧ (pollStep "m" "online"
        (some { status := "online", online_since := some 1000, notified_users := [],
                last_notification_time := none })
        [42] (1000 + GRACE_PERIOD_MS) emptyNotifStore (fun _ => true)).statusUpdate = none
    ∧ (processStatusChange "m" "online" "online"
        (some { status := "online", online_since := some 1000, notified_users := [],
                last_notification_time := none })
        [42] (1000 + GRACE_PERIOD_MS) emptyNotifStore (fun _ => true)).sent = [42] := by
  refine ⟨rfl, rfl, ?_⟩
  decide

/-- C6: on an online→offline transition the poll dispatches immediately
(no grace period) to every current subscriber — given that none of them
is inside the dedup window and the transport succeeds — storing an
offline status and building the message from the stored `online_since`
via `formatDuration`; an online duration of exactly 90 minutes renders as
"1hr 30m". -/
theorem poll_online_to_offline_notifies_all (modelName : String) (subs : List Nat)
    (t now : Nat) (ss : ModelStatus) (store : NotifStore) (sendOk : Nat → Bool)
    (hstat : ss.status = "online") (hsince : ss.online_since = some t) (ht : t ≠ 0)
    (hnodup : subs.Nodup)
    (hfresh : ∀ idc ∈ subs, isRecentNotification store now idc modelName "offline" = false)
    (hok : ∀ idc ∈ subs, sendOk idc = true) :
    (pollStep modelName "offline" (some ss) subs now store sendOk).sent = subs
    ∧ (pollStep modelName "offline" (some ss) subs now store sendOk).statusUpdate
        = some { status := "offline", online_since := none, notified_users := [],
                 last_notification_time := none }
    ∧ (pollStep modelName "offline" (some ss) subs now store sendOk).message
        = some (offlineMessage modelName
            (" (Online for " ++ formatDuration ((now : Int) - (t : Int)) ++ ")"))
    ∧ formatDuration ((90 : Int) * 60 * 1000) = "1hr 30m" := by
  have h1 : ("offline" : String) ≠ "unknown" := by decide
  have h2 : ("offline" : String) ≠ "online" := by decide
  obtain ⟨hs, hsk, he⟩ := sendAux_all_fresh now sendOk modelName "offline" subs store 0
    hnodup hfresh hok
  refine ⟨?_, ?_, ?_, by decide⟩
  · simp [pollStep, processStatusChange, sendNotifications, hstat, h1, h2, hs]
  · simp [pollStep, processStatusChange, sendNotifications, hstat, h1, h2]
  · simp [pollStep, processStatusChange, sendNotifications, hstat, hsince, ht, h1, h2]

/-- Witness for C6: entity online since t = 100, going offline at
now = 100 + 90 minutes, two fresh subscribers. -/
theorem poll_online_to_offline_notifies_all_witness :
    (pollStep "m" "offline"
        (some { status := "online", online_since := some 100, notified_users := [],
                last_notification_time := none })
        [3, 4] (100 + 90 * 60 * 1000) emptyNotifStore (fun _ => true)).sent = [3, 4]
    ∧ (pollStep "m" "offline"
        (some { status := "online", online_since := some 100, notified_users := [],
                last_notification_time := none })
        [3, 4] (100 + 90 * 60 * 1000) emptyNotifStore (fun _ => true)).message
        = some (offlineMessage "m" " (Online for 1hr 30m)") := by
  obtain ⟨h1, h2, h3, _⟩ := poll_online_to_offline_notifies_all "m" [3, 4] 100
    (100 + 90 * 60 * 1000)
    { status := "online", online_since := some 100, notified_users := [],
      last_notification_time := none }
    emptyNotifStore (fun _ => true) rfl rfl (by decide) (by decide)
    (by intro idc _; rfl) (by intro idc _; rfl)
  refine ⟨h1, ?_⟩
  rw [h3]
  decide

/-- C7: for a (subscriber, entity, transition-type) triple, a second
dispatch attempt within the 5-minute dedup window is skipped (exactly one
actual dispatch), the first dispatch records the timestamp with a
10-minute expiry, and an attempt after the window elapses dispatches
again. -/
theorem notification_dedup_window (c : Nat) (modelName ty : String)
    (store : NotifStore) (t0 t1 t2 : Nat) (sendOk : Nat → Bool)
    (h0 : isRecentNotification store t0 c modelName ty = false)
    (hok : sendOk c = true) (ht0 : t0 ≠ 0)
    (_h01 : t0 ≤ t1) (hwin : t1 - t0 < DEDUP_WINDOW_MS)
    (hlate : DEDUP_WINDOW_MS ≤ t2 - t0) :
    (sendNotifications store t0 sendOk [c] modelName ty).sent = [c]
    ∧ (sendNotifications store t0 sendOk [c] modelName ty).store (c, modelName, ty)
        = some (t0, t0 + NOTIF_EXPIRY_MS)
    ∧ (sendNotifications
        (sendNotifications store t0 sendOk [c] modelName ty).store
        t1 sendOk [c] modelName ty).sent = []
    ∧ (sendNotifications
        (sendNotifications store t0 sendOk [c] modelName ty).store
        t1 sendOk [c] modelName ty).skippedCount = 1
    ∧ (sendNotifications
        (sendNotifications store t0 sendOk [c] modelName ty).store
        t2 sendOk [c] modelName ty).sent = [c] := by
  have hr1 : (sendNotifications store t0 sendOk [c] modelName ty).store
      = recordNotification store t0 c modelName ty := by
    simp [sendNotifications, sendNotificationsAux, h0, hok]
  have hrec : recordNotification store t0 c modelName ty (c, modelName, ty)
      = some (t0, t0 + NOTIF_EXPIRY_MS) := by
    simp [recordNotification]
  have hvis1 : t1 < t0 + NOTIF_EXPIRY_MS := by
    simp only [DEDUP_WINDOW_MS] at hwin
    simp only [NOTIF_EXPIRY_MS]
    omega
  have hrecent1 : isRecentNotification (recordNotification store t0 c modelName ty) t1 c
      modelName ty = true := by
    simp only [isRecentNotification, kvGetNotifTime, hrec, if_pos hvis1, if_neg ht0]
    simpa using hwin
  have hrecent2 : isRecentNotification (recordNotification store t0 c modelName ty) t2 c
      modelName ty = false := by
    simp only [isRecentNotification, kvGetNotifTime, hrec]
    by_cases hv : t2 < t0 + NOTIF_EXPIRY_MS
    · rw [if_pos hv]
      show (if t0 = 0 then false else decide (t2 - t0 < DEDUP_WINDOW_MS)) = false
      rw [if_neg ht0]
      simp only [decide_eq_false_iff_not, not_lt]
      exact hlate
    · rw [if_neg hv]
  refine ⟨?_, ?_, ?_, ?_, ?_⟩
  · simp [sendNotifications, sendNotificationsAux, h0, hok]
  · rw [hr1, hrec]
  · rw [hr1]
    simp [sendNotifications, sendNotificationsAux, hrecent1]
  · rw [hr1]
    simp [sendNotifications, sendNotificationsAux, hrecent1]
  · rw [hr1]
    simp [sendNotifications, sendNotificationsAux, hrecent2, hok]

/-- Witness for C7: first dispatch at t0 = 1000, retry at t1 = 1001
(skipped), retry at t2 = 301000 (dispatched again). -/
theorem notification_dedup_window_witness :
    (sendNotifications emptyNotifStore 1000 (fun _ => true) [9] "m" "online").sent = [9]
    ∧ (sendNotifications
        (sendNotifications emptyNotifStore 1000 (fun _ => true) [9] "m" "online").store
        1001 (fun _ => true) [9] "m" "online").sent = []
    ∧ (sendNotifications
        (sendNotifications emptyNotifStore 1000 (fun _ => true) [9] "m" "online").store
        301000 (fun _ => true) [9] "m" "online").sent = [9] := by
  obtain ⟨h1, _, h3, _, h5⟩ := notification_dedup_window 9 "m" "online" emptyNotifStore
    1000 1001 301000 (fun _ => true) rfl rfl (by decide) (by decide) (by decide) (by decide)
  exact ⟨h1, h3, h5⟩

/-! ### main.ts — the poll cron job's lease (["cron_lock"]) -/

/-- How the body of the cron handler's `try` block ends: the batch loop
completes, the queue is empty (early `return` inside the `try`), the
error threshold stops the loop (`break`), or an unexpected exception
propagates to the `catch`. -/
inductive CycleOutcome where
  | completed
  | queueEmpty
  | errorThresholdBreak
  | unexpectedException

/-- The KV state relevant to the lease: the `["cron_lock"]` value (the
stored `startTime`), or `none` when absent. -/
structure CronLockState where
  cron_lock : Option Nat

/-- Lease acquisition (main.ts lines 31–40): an atomic
`check(versionstamp = null) + set` that succeeds only when the key is
absent. -/
def tryAcquireLock (st : CronLockState) (startTime : Nat) : CronLockState × Bool :=
  match st.cron_lock with
  | some _ => (st, false)
  | none => ({ cron_lock := some startTime }, true)

/-- The `try` body (main.ts lines 45–119): it never touches the lock key,
whatever way it ends. -/
def runCycleBody (st : CronLockState) (_outcome : CycleOutcome) : CronLockState := st

/-- The `finally` block (main.ts lines 120–127): `kv.delete(lockKey)`. -/
def releaseLock (_st : CronLockState) : CronLockState := { cron_lock := none }

/-- The whole cron handler: on a failed acquisition it returns before the
`try`, leaving the other holder's lock in place; otherwise the body runs
and the `finally` releases the lock on every outcome. -/
def checkModelStatusesCron (st : CronLockState) (startTime : Nat)
    (outcome : CycleOutcome) : CronLockState × Bool :=
  match tryAcquireLock st startTime with
  | (st1, false) => (st1, false)
  | (st1, true) => (releaseLock (runCycleBody st1 outcome), true)

/-- C8: every cycle that acquires the lease releases it in the
guaranteed-cleanup path — whether the body completes, exits early on an
empty queue, stops at the error threshold, or raises — so the lease key
is absent after the cycle. -/
theorem cron_lease_always_released (st : CronLockState) (startTime : Nat)
    (outcome : CycleOutcome) (h : st.cron_lock = none) :
    (checkModelStatusesCron st startTime outcome).2 = true
    ∧ (checkModelStatusesCron st startTime outcome).1.cron_lock = none := by
  cases outcome <;>
    simp [checkModelStatusesCron, tryAcquireLock, releaseLock, runCycleBody, h]

/-- Witness for C8 on a concrete free-lock state, for every outcome. -/
theorem cron_lease_always_released_witness :
    ((checkModelStatusesCron ⟨none⟩ 5 .completed).1.cron_lock = none)
    ∧ ((checkModelStatusesCron ⟨none⟩ 5 .queueEmpty).1.cron_lock = none)
    ∧ ((checkModelStatusesCron ⟨none⟩ 5 .errorThresholdBreak).1.cron_lock = none)
    ∧ ((checkModelStatusesCron ⟨none⟩ 5 .unexpectedException).1.cron_lock = none) :=
  ⟨(cron_lease_always_released ⟨none⟩ 5 .completed rfl).2,
   (cron_lease_always_released ⟨none⟩ 5 .queueEmpty rfl).2,
   (cron_lease_always_released ⟨none⟩ 5 .errorThresholdBreak rfl).2,
   (cron_lease_always_released ⟨none⟩ 5 .unexpectedException rfl).2⟩

/-! ### database.ts — ModelStatusCache

JS records hold their `notified_users` array by reference; the mutable
arrays live in an explicit heap indexed by address, so that aliasing is
observable.  `set` copies the record with a spread (`{ ...status }`),
which copies the scalar fields and the array *address* — not the array
contents. -/

/-- A `ModelStatus` record as the JS heap sees it: `notified_users` is an
address into the array heap. -/
structure JSStatusRecord where
  status : String
  online_since : Option Nat
  notified_users : Nat
  last_notification_time : Option Nat
deriving DecidableEq

structure ArrayHeap where
  data : Nat → List Nat

def heapPush (h : ArrayHeap) (addr v : Nat) : ArrayHeap :=
  { data := fun a => if a = addr then h.data a ++ [v] else h.data a }

structure CacheEntry where
  status : JSStatusRecord
  timestamp : Nat

def CACHE_TTL_MS : Nat := 30 * 1000

def StatusCacheMap : Type := String → Option CacheEntry

def emptyStatusCache : StatusCacheMap := fun _ => none

/-- `ModelStatusCache.set` (database.ts lines 250–255): stores
`{ status: { ...status }, timestamp: Date.now() }`.  The spread copies
each field, so the copy shares the `notified_users` array address with
the caller's record. -/
def cacheSet (cache : StatusCacheMap) (modelName : String) (s : JSStatusRecord)
    (now : Nat) : StatusCacheMap :=
  fun n =>
    if n = modelName then
      some { status := { status := s.status, online_since := s.online_since,
                         notified_users := s.notified_users,
                         last_notification_time := s.last_notification_time },
             timestamp := now }
    else cache n

/-- `ModelStatusCache.get` (database.ts lines 237–248): a missing or
expired entry is a miss (an expired entry is also evicted). -/
def cacheGet (cache : StatusCacheMap) (modelName : String) (now : Nat) :
    Option JSStatusRecord × StatusCacheMap :=
  match cache modelName with
  | none => (none, cache)
  | some entry =>
    if now - entry.timestamp > CACHE_TTL_MS then
      (none, fun n => if n = modelName then none else cache n)
    else (some entry.status, cache)

/-- The `notified_users` contents a reader of `get` observes, resolving
the record's array address in the heap. -/
def observedNotifiedUsers (cache : StatusCacheMap) (h : ArrayHeap)
    (modelName : String) (now : Nat) : Option (List Nat) :=
  ((cacheGet cache modelName now).1).map (fun s => h.data s.notified_users)

/-- C9 (code bug): the cache's `set` comment claims a deep copy, but the
spread is shallow: after `set`, pushing 42 onto the caller's
`notified_users` array (address 0) changes the value `get` returns from
`[]` to `[42]`. -/
theorem cacheSet_shallow_copy_aliasing :
    (observedNotifiedUsers
        (cacheSet emptyStatusCache "m"
          { status := "online", online_since := some 5, notified_users := 0,
            last_notification_time := none } 100)
        { data := fun _ => [] } "m" 100 = some [])
    ∧ (observedNotifiedUsers
        (cacheSet emptyStatusCache "m"
          { status := "online", online_since := some 5, notified_users := 0,
            last_notification_time := none } 100)
        (heapPush { data := fun _ => [] } 0 42) "m" 100 = some [42]) := by
  constructor <;> rfl

end CbBot
